import Mathlib

/-!
# Verification of the MindShow streaming classification and dispatch core

Shallow embedding of `src/integrated_mindshow_system.py` over the rationals
(Python floats are modelled as `ℚ`; all inputs considered are finite, so
`np.isnan` checks are identically false).  Each definition mirrors one
function or code block of the source file.
-/

namespace MindShow

/-- Clamp to the unit interval, `min 1 (max 0 x)` — the `min(1.0, max(0.0, _))` clamp used throughout
`integrated_mindshow_system.py`. -/
def clamp01 (x : ℚ) : ℚ := min 1 (max 0 x)

/-- Configuration record: the numeric tunables of `MindShowConfig`
(`integrated_mindshow_system.py` lines 60-98) that the classifier, the mood
mapper and the runtime-update endpoint touch.  Default values follow the
dataclass defaults. -/
structure MindShowConfig where
  attention_threshold : ℚ := 3/4
  relaxation_threshold : ℚ := 13/20
  state_confidence_required : ℕ := 3
  min_state_duration : ℚ := 2
  color_mood_smoothing : ℚ := 3/10
  color_mood_intensity_scale : ℚ := 1/2
  color_mood_attention_weight : ℚ := 2/5
  color_mood_relaxation_weight : ℚ := 2/5
  attention_min : ℚ := 0
  attention_max : ℚ := 10
  relaxation_min : ℚ := 0
  relaxation_max : ℚ := 5
deriving DecidableEq, Repr

/-- Default configuration (all dataclass defaults). -/
def defaultConfig : MindShowConfig := {}

/-! ## MoodMapper: `MultiPixelblazeController.update_from_brain_state`,
    lines 769-806 (the continuous color-mood computation). -/

/-- Lines 771-789: raw color mood from attention/relaxation.
`attention_contribution = (attention - 0.5) * -attention_weight`,
`relaxation_contribution = (relaxation - 0.5) * relaxation_weight`,
`engagement_level = (attention + relaxation)/2`,
`intensity = intensity_scale + engagement_level * (1 - intensity_scale)`,
`raw = clamp01(0.5 + (ac + rc) * intensity)`. -/
def rawColorMood (aw rw iscale attention relaxation : ℚ) : ℚ :=
  let attention_contribution := (attention - 1/2) * (-aw)
  let relaxation_contribution := (relaxation - 1/2) * rw
  let engagement_level := (attention + relaxation) / 2
  let intensity := iscale + engagement_level * (1 - iscale)
  clamp01 (1/2 + (attention_contribution + relaxation_contribution) * intensity)

/-- Lines 791-795: symmetric quadratic S-curve easing around `0.5`. -/
def easeSCurve (x : ℚ) : ℚ :=
  if x < 1/2 then (1/2) * (x * 2)^2 else 1 - (1/2) * ((1 - x) * 2)^2

/-- Lines 797-800: exponential moving average
`smoothed = α * eased + (1 - α) * previous`. -/
def emaSmooth (α eased previous : ℚ) : ℚ := α * eased + (1 - α) * previous

/-- One full mood-mapper tick: raw mood, clamp, ease, EMA against the stored
`previous_color_mood` (lines 771-803). Returns the new smoothed value, which
the code stores back into `previous_color_mood`. -/
def moodStep (cfg : MindShowConfig) (previous attention relaxation : ℚ) : ℚ :=
  emaSmooth cfg.color_mood_smoothing
    (easeSCurve (rawColorMood cfg.color_mood_attention_weight
      cfg.color_mood_relaxation_weight cfg.color_mood_intensity_scale
      attention relaxation))
    previous

/-- Folding a whole input sequence through the mood mapper, starting from the
initial `previous_color_mood = 0.5` set in `MultiPixelblazeController.__init__`
(line 611). -/
def moodRun (cfg : MindShowConfig) (inputs : List (ℚ × ℚ)) : ℚ :=
  inputs.foldl (fun prev ar => moodStep cfg prev ar.1 ar.2) (1/2)

/-! ## StateClassifier: `IntegratedEEGProcessor._classify_stable_brain_state`,
    lines 395-422, with state fields from `__init__` lines 292-295. -/

/-- The categorical brain state (`"neutral"`, `"engaged"`, `"relaxed"`). -/
inductive BrainState where
  | neutral
  | engaged
  | relaxed
deriving DecidableEq, Repr

/-- Mutable classifier state: `last_brain_state`, `state_confidence`,
`last_state_change` (`IntegratedEEGProcessor.__init__` lines 292-295).
`state_confidence` is kept as `ℕ`: the Python `int` never goes negative
because every decrement is `max(0, c - 1)`, which is exactly `ℕ`
subtraction. -/
structure ClassifierState where
  last_brain_state : BrainState
  state_confidence : ℕ
  last_state_change : ℚ
deriving DecidableEq, Repr

/-- Line 397-402: the candidate state from the (normalized) attention and
relaxation scores. -/
def candidateState (cfg : MindShowConfig) (attention relaxation : ℚ) : BrainState :=
  if attention > cfg.attention_threshold then .engaged
  else if relaxation > cfg.relaxation_threshold then .relaxed
  else .neutral

/-- Lines 395-422: one classifier tick.  Increments `state_confidence` on
disagreement, decays it (floored at 0) on agreement; then, when the counter
has reached `state_confidence_required` and at least `min_state_duration` has
elapsed since `last_state_change`, commits the candidate (recording the
transition time) and resets the counter to 0. `now` is the tick's
`time.time()`. -/
def classifyStep (cfg : MindShowConfig) (s : ClassifierState)
    (attention relaxation now : ℚ) : ClassifierState :=
  let new_state := candidateState cfg attention relaxation
  let conf : ℕ :=
    if new_state ≠ s.last_brain_state then s.state_confidence + 1
    else s.state_confidence - 1
  if conf ≥ cfg.state_confidence_required ∧
      now - s.last_state_change ≥ cfg.min_state_duration then
    if new_state ≠ s.last_brain_state then
      { last_brain_state := new_state, state_confidence := 0,
        last_state_change := now }
    else
      { s with state_confidence := 0 }
  else
    { s with state_confidence := conf }

/-- Running the classifier over a whole tick trace; each element is
`(attention, relaxation, now)`. -/
def classifyRun (cfg : MindShowConfig) (s : ClassifierState)
    (ticks : List (ℚ × ℚ × ℚ)) : ClassifierState :=
  ticks.foldl (fun st t => classifyStep cfg st t.1 t.2.1 t.2.2) s

/-- Initial classifier state (`__init__` lines 292-295): `"neutral"`,
confidence 0, `last_state_change = time.time()` at construction time `t0`. -/
def initClassifierState (t0 : ℚ) : ClassifierState :=
  { last_brain_state := .neutral, state_confidence := 0, last_state_change := t0 }

/-! ## Attention score pipeline: `IntegratedEEGProcessor.get_brain_state`
    lines 339-379 and `_dynamic_attention_scaling` lines 480-501. -/

/-- One band-power sample (`band_powers` dict).  Finite values only, so the
`np.isnan` guards of the source are identically false. -/
structure BandPowers where
  delta : ℚ
  theta : ℚ
  alpha : ℚ
  beta : ℚ
  gamma : ℚ
deriving DecidableEq, Repr

/-- Lines 345-350: raw attention ratio `beta/alpha`, neutral `0.5` when
`alpha` is not positive. -/
def rawAttention (b : BandPowers) : ℚ :=
  if b.alpha > 0 then b.beta / b.alpha else 1/2

/-- Lines 358-362: linear normalization of the raw attention ratio into
`[0,1]` by the configured range. -/
def normalizedAttention (cfg : MindShowConfig) (b : BandPowers) : ℚ :=
  clamp01 ((rawAttention b - cfg.attention_min) /
    (cfg.attention_max - cfg.attention_min))

/-- The five band values in dict order (`delta, theta, alpha, beta, gamma`),
as iterated by `band_powers.values()`. -/
def bandValues (b : BandPowers) : List ℚ :=
  [b.delta, b.theta, b.alpha, b.beta, b.gamma]

/-- Lines 480-501, `_dynamic_attention_scaling`: fallback used when the
normalized attention comes out exactly 0.  Scale beta directly; else inverse
alpha; else the average of the positive band powers; else neutral 0.5. -/
def dynamicAttentionScaling (b : BandPowers) : ℚ :=
  if b.beta > 0 then clamp01 (b.beta / 15)
  else if b.alpha > 0 then clamp01 ((1 / (b.alpha + 1/10)) / 10)
  else
    let available := (bandValues b).filter (fun v => v > 0)
    if available ≠ [] then clamp01 ((available.sum / available.length) / 10)
    else 1/2

/-- Lines 358-379 combined: the attention score actually fed to
`_classify_stable_brain_state` — the normalized score, except that an exact 0
triggers the dynamic-scaling fallback (lines 376-379). -/
def attentionUsed (cfg : MindShowConfig) (b : BandPowers) : ℚ :=
  let n := normalizedAttention cfg b
  if n = 0 then dynamicAttentionScaling b else n

/-! ## Command building: `MultiPixelblazeController.update_from_brain_state`
    lines 808-824 and `state_mappings` lines 621-649. -/

/-- Python's `round(x, 3)` at the integer step: banker's rounding
(round-half-to-even). -/
def roundHalfEven (q : ℚ) : ℤ :=
  let f := ⌊q⌋
  let frac := q - f
  if frac < 1/2 then f
  else if frac > 1/2 then f + 1
  else if f % 2 = 0 then f else f + 1

/-- Python's `round(x, 3)` (line 809: `final_color_mood = round(smoothed_color_mood, 3)`). -/
def round3 (x : ℚ) : ℚ := (roundHalfEven (x * 1000) : ℚ) / 1000

/-- The per-state variable block of `state_mappings` (hue, brightness, speed,
colorMoodBias). -/
structure StateVars where
  hue : ℚ
  brightness : ℚ
  speed : ℚ
  colorMoodBias : ℚ
deriving DecidableEq, Repr

/-- One entry of `state_mappings`. -/
structure StateMapping where
  pattern_name : String
  vars : StateVars
deriving DecidableEq, Repr

/-- Lines 621-649: the fixed brain-state → pattern/variables table. -/
def state_mappings : BrainState → StateMapping
  | .engaged => ⟨"sparkfire", ⟨0, 9/10, 4/5, 1/5⟩⟩
  | .relaxed => ⟨"slow waves", ⟨67/100, 1/2, 3/10, 4/5⟩⟩
  | .neutral => ⟨"rainbow", ⟨33/100, 7/10, 1/2, 1/2⟩⟩

/-- The per-tick command: optional pattern switch plus the variable set. -/
structure Command where
  targetPattern : Option String
  vars : StateVars
deriving DecidableEq, Repr

/-- Lines 808-824: build the per-tick command.  `state_changed` compares the
tick's brain state with the controller's `last_brain_state`; the pattern name
is included only on a change; the state's base variables are copied and
`colorMoodBias` is overwritten with `round(smoothed, 3)`. -/
def buildCommand (brain_state last_brain_state : BrainState)
    (smoothed_color_mood : ℚ) : Command :=
  let state_changed := brain_state ≠ last_brain_state
  let mapping := state_mappings brain_state
  { targetPattern := if state_changed then some mapping.pattern_name else none,
    vars := { mapping.vars with colorMoodBias := round3 smoothed_color_mood } }

/-! ## Catalog parsing: `MultiPixelblazeController._load_device_patterns`
    lines 729-734 (the parse of the accumulated pattern-list text). -/

/-- Python's `str.splitlines` on the line endings that can occur here
(`\n`, `\r`, `\r\n`); no trailing empty line is produced. -/
def pySplitlinesAux : List Char → List Char → List (List Char)
  | [], acc => if acc.isEmpty then [] else [acc.reverse]
  | '\r' :: '\n' :: rest, acc => acc.reverse :: pySplitlinesAux rest []
  | '\n' :: rest, acc => acc.reverse :: pySplitlinesAux rest []
  | '\r' :: rest, acc => acc.reverse :: pySplitlinesAux rest []
  | c :: rest, acc => pySplitlinesAux rest (c :: acc)

/-- Python's `text.splitlines()`. -/
def pySplitlines (s : String) : List String :=
  (pySplitlinesAux s.data []).map String.mk

/-- Python whitespace as stripped by `str.strip()`. -/
def pyIsSpace (c : Char) : Bool :=
  c == ' ' || c == '\t' || c == '\n' || c == '\r' || c == '\x0b' || c == '\x0c'

/-- Truthiness of `line.strip()`: the line has a non-whitespace character. -/
def stripTruthy (l : List Char) : Bool := l.any fun c => !(pyIsSpace c)

/-- Python's `line.split('\t', 1)` when a tab is present: text before the first tab,
and the rest of the line after it. -/
def splitFirstTab : List Char → List Char × List Char
  | [] => ([], [])
  | '\t' :: rest => ([], rest)
  | c :: rest =>
    let p := splitFirstTab rest
    (c :: p.1, p.2)

/-- Line 732-733: a line becomes a `(pattern_id, pattern_name)` entry exactly
when `line.strip()` is truthy and the line contains a tab. -/
def parseLine (l : List Char) : Option (String × String) :=
  if stripTruthy l && l.any (· == '\t') then
    let p := splitFirstTab l
    some (⟨p.1⟩, ⟨p.2⟩)
  else none

/-- Python dict assignment `d[k] = v`: an existing key keeps its position and
gets the new value, a new key is appended. -/
def dictInsert (d : List (String × String)) (k v : String) :
    List (String × String) :=
  if d.any (fun p => p.1 == k) then
    d.map fun p => if p.1 == k then (k, v) else p
  else d ++ [(k, v)]

/-- Lines 730-734: `device.patterns = {}` then one dict assignment per
qualifying line of `pattern_list_text.splitlines()`. -/
def parseCatalogText (text : String) : List (String × String) :=
  (pySplitlines text).foldl
    (fun d line =>
      match parseLine line.data with
      | some kv => dictInsert d kv.1 kv.2
      | none => d)
    []

/-! ## Pattern lookup and device update:
    `MultiPixelblazeController._update_device_continuous` lines 845-866. -/

/-- Boolean list prefix test (char-by-char). -/
def prefixOfB : List Char → List Char → Bool
  | [], _ => true
  | _ :: _, [] => false
  | a :: as, b :: bs => a == b && prefixOfB as bs

/-- Boolean contiguous-substring test: Python's `needle in hay` on strings. -/
def substrOfB (needle : List Char) : List Char → Bool
  | [] => needle.isEmpty
  | c :: rest => prefixOfB needle (c :: rest) || substrOfB needle rest

/-- Lowercasing, `str.lower()`. -/
def toLowerList (l : List Char) : List Char := l.map Char.toLower

/-- Lines 850-855: find a pattern id by case-insensitive substring match of
the requested name against the catalog names; first match in iteration order
wins, `none` when nothing matches. -/
def findPatternId (patterns : List (String × String)) (pattern_name : String) :
    Option String :=
  (patterns.find? fun p =>
    substrOfB (toLowerList pattern_name.data) (toLowerList p.2.data)).map
    Prod.fst

/-- A message sent to one device over its websocket. -/
inductive DeviceMsg where
  | activeProgram (id : String)
  | setVars (vars : List (String × ℚ))
deriving DecidableEq, Repr

/-- Lines 845-866: the messages `_update_device_continuous` sends.  A pattern
switch is attempted only when a pattern name was requested and resolves in
the catalog; the `setVars` message is always sent. -/
def updateDeviceMessages (pattern_name : Option String)
    (patterns : List (String × String)) (vs : List (String × ℚ)) :
    List DeviceMsg :=
  match pattern_name with
  | none => [.setVars vs]
  | some name =>
    match findPatternId patterns name with
    | some pid => [.activeProgram pid, .setVars vs]
    | none => [.setVars vs]

/-! ## Runtime configuration update:
    `MindShowIntegratedSystem.update_config` lines 1913-1930 and the
    `/api/update_config` endpoint lines 944-979. -/

/-- Lines 1913-1927, `update_config`: `hasattr`/`setattr` over the numeric
tunables of `MindShowConfig`; an unknown attribute name returns `False` and
leaves the config unchanged.  No range check of any kind is performed on
`value`. -/
def updateConfigField (cfg : MindShowConfig) (parameter : String) (value : ℚ) :
    Bool × MindShowConfig :=
  if parameter = "attention_threshold" then
    (true, { cfg with attention_threshold := value })
  else if parameter = "relaxation_threshold" then
    (true, { cfg with relaxation_threshold := value })
  else if parameter = "min_state_duration" then
    (true, { cfg with min_state_duration := value })
  else if parameter = "color_mood_smoothing" then
    (true, { cfg with color_mood_smoothing := value })
  else if parameter = "color_mood_intensity_scale" then
    (true, { cfg with color_mood_intensity_scale := value })
  else if parameter = "color_mood_attention_weight" then
    (true, { cfg with color_mood_attention_weight := value })
  else if parameter = "color_mood_relaxation_weight" then
    (true, { cfg with color_mood_relaxation_weight := value })
  else if parameter = "attention_min" then
    (true, { cfg with attention_min := value })
  else if parameter = "attention_max" then
    (true, { cfg with attention_max := value })
  else if parameter = "relaxation_min" then
    (true, { cfg with relaxation_min := value })
  else if parameter = "relaxation_max" then
    (true, { cfg with relaxation_max := value })
  else (false, cfg)

/-- Lines 955-964: the `valid_params` whitelist of the
`/api/update_config` endpoint. -/
def valid_params : List String :=
  ["color_mood_smoothing", "color_mood_intensity_scale",
   "color_mood_attention_weight", "color_mood_relaxation_weight",
   "attention_min", "attention_max", "relaxation_min", "relaxation_max"]

/-- Lines 944-975: the endpoint rejects a name outside `valid_params`
(returning failure, config untouched) and otherwise forwards to
`update_config`.  The returned `Bool` is the `success` field of the JSON
reply. -/
def updateConfigEndpoint (cfg : MindShowConfig) (parameter : String)
    (value : ℚ) : Bool × MindShowConfig :=
  if parameter ∈ valid_params then updateConfigField cfg parameter value
  else (false, cfg)

/-! ## Discovery vs. connection handshake:
    `PixelblazeDiscovery._is_pixelblaze` lines 584-598 and
    `MultiPixelblazeController._connect_device` lines 674-697. -/

/-- A JSON scalar, enough to model a handshake reply document. -/
inductive JsonVal where
  | bool (b : Bool)
  | num (q : ℚ)
  | str (s : String)
deriving DecidableEq, Repr

/-- A JSON object: key/value pairs. -/
def JsonObj := List (String × JsonVal)

/-- Membership test `k in data` on a parsed JSON object. -/
def hasKey (o : JsonObj) (k : String) : Bool :=
  (List.any o fun p => p.1 == k)

/-- Lookup `data.get(k)`. -/
def getKey (o : JsonObj) (k : String) : Option JsonVal :=
  (List.find? (fun p => p.1 == k) o).map Prod.snd

/-- Python truthiness of the optional JSON value `data.get(k)` returns. -/
def pyTruthy : Option JsonVal → Bool
  | none => false
  | some (.bool b) => b
  | some (.num q) => q ≠ 0
  | some (.str s) => s ≠ ""

/-- Lines 593-595: discovery classifies a handshake reply as a Pixelblaze
when it has an `"ack"` key or an `"fps"` key. -/
def isPixelblazeReply (o : JsonObj) : Bool := hasKey o "ack" || hasKey o "fps"

/-- Line 684: `_connect_device` accepts the handshake only when
`json.loads(response).get("ack")` is truthy. -/
def connectAccepts (o : JsonObj) : Bool := pyTruthy (getKey o "ack")

/-! ## Spec-side formulas (for the refinement claims) -/

/-- Modelled from the spec wording of the raw-mood formula (§4.2):
`rawMood = clamp01(0.5 + ((attention-0.5)*(-attentionWeight) +
(relaxation-0.5)*relaxationWeight) * (intensityScaleBase +
((attention+relaxation)/2)*(1-intensityScaleBase)))`.  To be compared with
the source-derived `rawColorMood`. -/
def rawMoodSpec (aw rw iscale attention relaxation : ℚ) : ℚ :=
  clamp01 (1/2 + ((attention - 1/2) * (-aw) + (relaxation - 1/2) * rw) *
    (iscale + ((attention + relaxation) / 2) * (1 - iscale)))

/-- Modelled from the spec wording of the S-curve (§4.2): for `x < 0.5`,
`eased = 0.5*(2x)²`; for `x ≥ 0.5`, `eased = 1 - 0.5*(2(1-x))²`.  To be
compared with the source-derived `easeSCurve`. -/
def easeSpec (x : ℚ) : ℚ :=
  if x < 1/2 then (1/2) * (2 * x)^2 else 1 - (1/2) * (2 * (1 - x))^2

/-! ## Concrete fixtures used by the claim theorems -/

/-- A configuration with `state_confidence_required = 1` (all other defaults),
used to exercise the classifier guard on short concrete traces. -/
def cfgFast : MindShowConfig := { state_confidence_required := 1 }

/-- The five-tick trace refuting the "consecutive disagreements" reading:
candidates engaged, engaged, neutral, engaged, engaged against a committed
`neutral` state (attention 9/10 produces candidate `engaged` at the default
threshold 3/4; attention 0, relaxation 0 produce candidate `neutral`). -/
def cexTicks : List (ℚ × ℚ × ℚ) :=
  [(9/10, 0, 10), (9/10, 0, 20), (0, 0, 30), (9/10, 0, 40), (9/10, 0, 50)]

/-- The band sample refuting C5 as stated: alpha positive but beta zero, so
the normalized attention is exactly 0 and the dynamic fallback replaces it. -/
def cexBands : BandPowers := ⟨1, 1, 1, 0, 1⟩

/-- The Scenario C catalog: the parse of
`"AB12CD34\tsparkfire\nEF56GH78\trainbow\n"`. -/
def scenarioCatalog : List (String × String) :=
  [("AB12CD34", "sparkfire"), ("EF56GH78", "rainbow")]

/-- A handshake reply carrying only an `"fps"` field. -/
def fpsOnlyReply : JsonObj := [("fps", JsonVal.num 30)]

/-! ## Auxiliary lemmas -/

lemma clamp01_mem (x : ℚ) : 0 ≤ clamp01 x ∧ clamp01 x ≤ 1 := by
  unfold clamp01
  constructor
  · exact le_min (by norm_num) (le_max_left 0 x)
  · exact min_le_left 1 _

lemma easeSCurve_mem {x : ℚ} (h0 : 0 ≤ x) (h1 : x ≤ 1) :
    0 ≤ easeSCurve x ∧ easeSCurve x ≤ 1 := by
  unfold easeSCurve
  split
  · constructor
    · positivity
    · nlinarith
  · constructor
    · nlinarith
    · nlinarith

lemma emaSmooth_mem {α e p : ℚ} (hα0 : 0 ≤ α) (hα1 : α ≤ 1)
    (he0 : 0 ≤ e) (he1 : e ≤ 1) (hp0 : 0 ≤ p) (hp1 : p ≤ 1) :
    0 ≤ emaSmooth α e p ∧ emaSmooth α e p ≤ 1 := by
  unfold emaSmooth
  constructor
  · nlinarith
  · nlinarith

lemma moodStep_mem (cfg : MindShowConfig)
    (hα0 : 0 ≤ cfg.color_mood_smoothing) (hα1 : cfg.color_mood_smoothing ≤ 1)
    {p : ℚ} (hp0 : 0 ≤ p) (hp1 : p ≤ 1) (a r : ℚ) :
    0 ≤ moodStep cfg p a r ∧ moodStep cfg p a r ≤ 1 := by
  unfold moodStep
  have hraw := clamp01_mem (1/2 +
    ((a - 1/2) * (-cfg.color_mood_attention_weight) +
      (r - 1/2) * cfg.color_mood_relaxation_weight) *
      (cfg.color_mood_intensity_scale +
        (a + r) / 2 * (1 - cfg.color_mood_intensity_scale)))
  have hraw' : 0 ≤ rawColorMood cfg.color_mood_attention_weight
      cfg.color_mood_relaxation_weight cfg.color_mood_intensity_scale a r ∧
      rawColorMood cfg.color_mood_attention_weight
      cfg.color_mood_relaxation_weight cfg.color_mood_intensity_scale a r ≤ 1 := by
    unfold rawColorMood
    exact hraw
  have hease := easeSCurve_mem hraw'.1 hraw'.2
  exact emaSmooth_mem hα0 hα1 hease.1 hease.2 hp0 hp1


lemma rawColorMood_mem (aw rw iscale a r : ℚ) :
    0 ≤ rawColorMood aw rw iscale a r ∧ rawColorMood aw rw iscale a r ≤ 1 := by
  unfold rawColorMood
  exact clamp01_mem _

lemma moodFoldl_mem (cfg : MindShowConfig)
    (hα0 : 0 ≤ cfg.color_mood_smoothing) (hα1 : cfg.color_mood_smoothing ≤ 1) :
    ∀ (inputs : List (ℚ × ℚ)) (p : ℚ), 0 ≤ p → p ≤ 1 →
      0 ≤ inputs.foldl (fun prev ar => moodStep cfg prev ar.1 ar.2) p ∧
      inputs.foldl (fun prev ar => moodStep cfg prev ar.1 ar.2) p ≤ 1 := by
  intro inputs
  induction inputs with
  | nil =>
    intro p h0 h1
    simpa using ⟨h0, h1⟩
  | cons hd tl ih =>
    intro p h0 h1
    simp only [List.foldl_cons]
    have h := moodStep_mem cfg hα0 hα1 h0 h1 hd.1 hd.2
    exact ih _ h.1 h.2

lemma classifyStep_cases (cfg : MindShowConfig) (s : ClassifierState)
    (a r now : ℚ) :
    classifyStep cfg s a r now =
      if (if candidateState cfg a r ≠ s.last_brain_state then
            s.state_confidence + 1 else s.state_confidence - 1) ≥
          cfg.state_confidence_required ∧
          now - s.last_state_change ≥ cfg.min_state_duration then
        if candidateState cfg a r ≠ s.last_brain_state then
          ⟨candidateState cfg a r, 0, now⟩
        else { s with state_confidence := 0 }
      else
        { s with state_confidence :=
            if candidateState cfg a r ≠ s.last_brain_state then
              s.state_confidence + 1 else s.state_confidence - 1 } := rfl

lemma classifyStep_change (cfg : MindShowConfig) (s : ClassifierState)
    (a r now : ℚ)
    (h : (classifyStep cfg s a r now).last_brain_state ≠ s.last_brain_state) :
    candidateState cfg a r ≠ s.last_brain_state ∧
    cfg.state_confidence_required ≤ s.state_confidence + 1 ∧
    cfg.min_state_duration ≤ now - s.last_state_change ∧
    classifyStep cfg s a r now = ⟨candidateState cfg a r, 0, now⟩ := by
  by_cases hd : candidateState cfg a r ≠ s.last_brain_state
  · by_cases hc : s.state_confidence + 1 ≥ cfg.state_confidence_required ∧
        now - s.last_state_change ≥ cfg.min_state_duration
    · have hstep : classifyStep cfg s a r now =
          ⟨candidateState cfg a r, 0, now⟩ := by
        rw [classifyStep_cases]
        simp only [if_pos hd]
        rw [if_pos hc]
      exact ⟨hd, hc.1, hc.2, hstep⟩
    · exfalso
      apply h
      rw [classifyStep_cases]
      simp only [if_pos hd]
      rw [if_neg hc]
  · exfalso
    apply h
    rw [classifyStep_cases]
    simp only [if_neg hd]
    split <;> rfl

lemma classifyStep_same_lastChange (cfg : MindShowConfig)
    (s : ClassifierState) (a r now : ℚ)
    (h : (classifyStep cfg s a r now).last_brain_state = s.last_brain_state) :
    (classifyStep cfg s a r now).last_state_change = s.last_state_change := by
  by_cases hd : candidateState cfg a r ≠ s.last_brain_state
  · by_cases hc : s.state_confidence + 1 ≥ cfg.state_confidence_required ∧
        now - s.last_state_change ≥ cfg.min_state_duration
    · exfalso
      apply hd
      have hstep : classifyStep cfg s a r now =
          ⟨candidateState cfg a r, 0, now⟩ := by
        rw [classifyStep_cases]
        simp only [if_pos hd]
        rw [if_pos hc]
      rw [hstep] at h
      exact h
    · rw [classifyStep_cases]
      simp only [if_pos hd]
      rw [if_neg hc]
  · rw [classifyStep_cases]
    simp only [if_neg hd]
    split <;> rfl

lemma classifyRun_cons (cfg : MindShowConfig) (s : ClassifierState)
    (t : ℚ × ℚ × ℚ) (ticks : List (ℚ × ℚ × ℚ)) :
    classifyRun cfg s (t :: ticks) =
      classifyRun cfg (classifyStep cfg s t.1 t.2.1 t.2.2) ticks := rfl

lemma classifyRun_noflip (cfg : MindShowConfig) :
    ∀ (ticks : List (ℚ × ℚ × ℚ)) (s : ClassifierState),
      (∀ pre post, ticks = pre ++ post →
        (classifyRun cfg s pre).last_brain_state = s.last_brain_state) →
      (classifyRun cfg s ticks).last_state_change = s.last_state_change ∧
      (classifyRun cfg s ticks).last_brain_state = s.last_brain_state := by
  intro ticks
  induction ticks with
  | nil =>
    intro s _
    exact ⟨rfl, rfl⟩
  | cons hd tl ih =>
    intro s h
    have h1 : (classifyStep cfg s hd.1 hd.2.1 hd.2.2).last_brain_state =
        s.last_brain_state := by
      have := h [hd] tl rfl
      simpa [classifyRun] using this
    have hlc := classifyStep_same_lastChange cfg s hd.1 hd.2.1 hd.2.2 h1
    have hrest := ih (classifyStep cfg s hd.1 hd.2.1 hd.2.2) ?_
    · rw [classifyRun_cons]
      exact ⟨by rw [hrest.1, hlc], by rw [hrest.2, h1]⟩
    · intro pre post hsplit
      have h2 := h (hd :: pre) post (by rw [hsplit]; rfl)
      rw [classifyRun_cons] at h2
      rw [h2, h1]

/-! ## Claim theorems -/

/-- C1 (amended): the committed state (`last_brain_state`) changes only at a
tick where the updated confidence counter — incremented on disagreement and
decayed toward zero on agreement — has reached `state_confidence_required`
AND at least `min_state_duration` has elapsed since `last_state_change`; on a
commit the counter is reset and the transition time recorded, and ticks that
leave the committed state unchanged leave the recorded transition time
unchanged, so two successive commits are at least `min_state_duration` apart:
the committed state changes at most once per dwell window.  (The original
claim's "confidenceRequired consecutive disagreements" is refuted by
`classifier_consecutive_disagreements_cex`: the decayed counter can reach the
threshold after a shorter final run of disagreements.) -/
theorem classifier_commit_guard (cfg : MindShowConfig) (s : ClassifierState)
    (a r now : ℚ) :
    ((classifyStep cfg s a r now).last_brain_state ≠ s.last_brain_state →
      cfg.state_confidence_required ≤ s.state_confidence + 1 ∧
      cfg.min_state_duration ≤ now - s.last_state_change ∧
      (classifyStep cfg s a r now).state_confidence = 0 ∧
      (classifyStep cfg s a r now).last_state_change = now ∧
      (classifyStep cfg s a r now).last_brain_state =
        candidateState cfg a r) ∧
    ((classifyStep cfg s a r now).last_brain_state = s.last_brain_state →
      (classifyStep cfg s a r now).last_state_change = s.last_state_change) ∧
    (∀ (ticks : List (ℚ × ℚ × ℚ)) (a2 r2 t2 : ℚ),
      (classifyStep cfg s a r now).last_brain_state ≠ s.last_brain_state →
      (∀ pre post, ticks = pre ++ post →
        (classifyRun cfg (classifyStep cfg s a r now) pre).last_brain_state =
          (classifyStep cfg s a r now).last_brain_state) →
      (classifyStep cfg (classifyRun cfg (classifyStep cfg s a r now) ticks)
          a2 r2 t2).last_brain_state ≠
        (classifyRun cfg (classifyStep cfg s a r now) ticks).last_brain_state →
      cfg.min_state_duration ≤ t2 - now) := by
  refine ⟨?_, classifyStep_same_lastChange cfg s a r now, ?_⟩
  · intro h
    obtain ⟨hcand, hconf, hdwell, hstep⟩ := classifyStep_change cfg s a r now h
    rw [hstep]
    exact ⟨hconf, hdwell, rfl, rfl, rfl⟩
  · intro ticks a2 r2 t2 hchange hnoflip hnext
    obtain ⟨_, _, _, hstep⟩ := classifyStep_change cfg s a r now hchange
    have hrun := classifyRun_noflip cfg ticks (classifyStep cfg s a r now)
      hnoflip
    obtain ⟨_, _, hdwell2, _⟩ := classifyStep_change cfg
      (classifyRun cfg (classifyStep cfg s a r now) ticks) a2 r2 t2 hnext
    have hlast : (classifyRun cfg (classifyStep cfg s a r now)
        ticks).last_state_change = now := by
      rw [hrun.1, hstep]
    rwa [hlast] at hdwell2

lemma cfgFast_step1 :
    classifyStep cfgFast ⟨.neutral, 0, 0⟩ (9/10) 0 5 = ⟨.engaged, 0, 5⟩ := by
  norm_num [classifyStep, candidateState, cfgFast] <;> decide

lemma cfgFast_step2 :
    classifyStep cfgFast ⟨.engaged, 0, 5⟩ 0 (9/10) 7 = ⟨.relaxed, 0, 7⟩ := by
  norm_num [classifyStep, candidateState, cfgFast] <;> decide

/-- Witness for C1: with `confidenceRequired = 1` and `minDwell = 2`, a
commit at time 5 followed immediately by a commit at time 7 satisfies the
dwell separation `minDwell ≤ 7 - 5`. -/
theorem classifier_commit_guard_witness :
    cfgFast.min_state_duration ≤ (7 : ℚ) - 5 :=
  (classifier_commit_guard cfgFast ⟨.neutral, 0, 0⟩ (9/10) 0 5).2.2
    [] 0 (9/10) 7
    (by rw [cfgFast_step1]; decide)
    (by
      intro pre post h
      cases pre with
      | nil => rfl
      | cons x xs => exact absurd h.symm (List.cons_ne_nil _ _))
    (by
      show (classifyStep cfgFast
          (classifyStep cfgFast ⟨.neutral, 0, 0⟩ (9/10) 0 5)
          0 (9/10) 7).last_brain_state ≠
        (classifyStep cfgFast ⟨.neutral, 0, 0⟩ (9/10) 0 5).last_brain_state
      rw [cfgFast_step1, cfgFast_step2]
      decide)

lemma cex_step1 :
    classifyStep defaultConfig ⟨.neutral, 0, 0⟩ (9/10) 0 10 = ⟨.neutral, 1, 0⟩ := by
  norm_num [classifyStep, candidateState, defaultConfig] <;> decide

lemma cex_step2 :
    classifyStep defaultConfig ⟨.neutral, 1, 0⟩ (9/10) 0 20 = ⟨.neutral, 2, 0⟩ := by
  norm_num [classifyStep, candidateState, defaultConfig] <;> decide

lemma cex_step3 :
    classifyStep defaultConfig ⟨.neutral, 2, 0⟩ 0 0 30 = ⟨.neutral, 1, 0⟩ := by
  norm_num [classifyStep, candidateState, defaultConfig] <;> decide

lemma cex_step4 :
    classifyStep defaultConfig ⟨.neutral, 1, 0⟩ (9/10) 0 40 = ⟨.neutral, 2, 0⟩ := by
  norm_num [classifyStep, candidateState, defaultConfig] <;> decide

lemma cex_step5 :
    classifyStep defaultConfig ⟨.neutral, 2, 0⟩ (9/10) 0 50 = ⟨.engaged, 0, 50⟩ := by
  norm_num [classifyStep, candidateState, defaultConfig] <;> decide

/-- Counterexample to C1 as stated: with the default configuration
(`state_confidence_required = 3`), the committed state flips from `neutral`
to `engaged` at the fifth tick of `cexTicks`, yet the third tick's candidate
agreed with the committed state, so the commit is preceded by only two
consecutive disagreements — fewer than the required three.  The decayed
counter (1→2→1→2→3) still reaches the threshold. -/
theorem classifier_consecutive_disagreements_cex :
    (classifyRun defaultConfig (initClassifierState 0)
        cexTicks).last_brain_state = BrainState.engaged ∧
    (classifyRun defaultConfig (initClassifierState 0)
        (cexTicks.take 4)).last_brain_state = BrainState.neutral ∧
    candidateState defaultConfig 0 0 =
      (classifyRun defaultConfig (initClassifierState 0)
        (cexTicks.take 2)).last_brain_state ∧
    candidateState defaultConfig (9/10) 0 ≠ BrainState.neutral ∧
    defaultConfig.state_confidence_required = 3 := by
  refine ⟨?_, ?_, ?_, ?_, rfl⟩
  · show (classifyStep defaultConfig (classifyStep defaultConfig
      (classifyStep defaultConfig (classifyStep defaultConfig
        (classifyStep defaultConfig ⟨.neutral, 0, 0⟩ (9/10) 0 10)
        (9/10) 0 20) 0 0 30) (9/10) 0 40) (9/10) 0 50).last_brain_state =
      BrainState.engaged
    rw [cex_step1, cex_step2, cex_step3, cex_step4, cex_step5]
  · show (classifyStep defaultConfig (classifyStep defaultConfig
      (classifyStep defaultConfig (classifyStep defaultConfig
        ⟨.neutral, 0, 0⟩ (9/10) 0 10) (9/10) 0 20) 0 0 30)
        (9/10) 0 40).last_brain_state = BrainState.neutral
    rw [cex_step1, cex_step2, cex_step3, cex_step4]
  · show candidateState defaultConfig 0 0 =
      (classifyStep defaultConfig (classifyStep defaultConfig
        ⟨.neutral, 0, 0⟩ (9/10) 0 10) (9/10) 0 20).last_brain_state
    rw [cex_step1, cex_step2]
    norm_num [candidateState, defaultConfig]
  · norm_num [candidateState, defaultConfig] <;> decide

/-- C2: for every sequence of finite attention/relaxation inputs the mood
mapper's smoothed value (`previous_color_mood`) stays in `[0,1]` after every
update, starting from its initial value `0.5`: the raw mood is clamped to
`[0,1]`, the S-curve easing maps `[0,1]` into `[0,1]`, and the exponential
moving average of two values in `[0,1]` stays in `[0,1]` (for a smoothing
factor in `[0,1]`). -/
theorem mood_smoothed_value_bounded (cfg : MindShowConfig)
    (hα0 : 0 ≤ cfg.color_mood_smoothing) (hα1 : cfg.color_mood_smoothing ≤ 1)
    (inputs : List (ℚ × ℚ)) :
    (0 ≤ moodRun cfg inputs ∧ moodRun cfg inputs ≤ 1) ∧
    (∀ x : ℚ, 0 ≤ clamp01 x ∧ clamp01 x ≤ 1) ∧
    (∀ x : ℚ, 0 ≤ x → x ≤ 1 → 0 ≤ easeSCurve x ∧ easeSCurve x ≤ 1) ∧
    (∀ e p : ℚ, 0 ≤ e → e ≤ 1 → 0 ≤ p → p ≤ 1 →
      0 ≤ emaSmooth cfg.color_mood_smoothing e p ∧
      emaSmooth cfg.color_mood_smoothing e p ≤ 1) := by
  refine ⟨?_, clamp01_mem, fun x h0 h1 => easeSCurve_mem h0 h1,
    fun e p he0 he1 hp0 hp1 => emaSmooth_mem hα0 hα1 he0 he1 hp0 hp1⟩
  exact moodFoldl_mem cfg hα0 hα1 inputs (1/2) (by norm_num) (by norm_num)

/-- Witness for C2 at the default configuration and a concrete two-tick
input sequence. -/
theorem mood_smoothed_value_bounded_witness :
    0 ≤ moodRun defaultConfig [(9/10, 1/10), (0, 1)] ∧
    moodRun defaultConfig [(9/10, 1/10), (0, 1)] ≤ 1 :=
  (mood_smoothed_value_bounded defaultConfig (by norm_num [defaultConfig])
    (by norm_num [defaultConfig]) [(9/10, 1/10), (0, 1)]).1

/-- C3: one mood-mapper update moves the smoothed value by at most the EMA
factor `color_mood_smoothing`, no matter how large the jump in the raw/eased
input, provided the previous smoothed value is in `[0,1]`. -/
theorem mood_step_continuity (cfg : MindShowConfig)
    (hα0 : 0 ≤ cfg.color_mood_smoothing)
    (p : ℚ) (hp0 : 0 ≤ p) (hp1 : p ≤ 1) (a r : ℚ) :
    |moodStep cfg p a r - p| ≤ cfg.color_mood_smoothing := by
  have hrm := rawColorMood_mem cfg.color_mood_attention_weight
    cfg.color_mood_relaxation_weight cfg.color_mood_intensity_scale a r
  have hem := easeSCurve_mem hrm.1 hrm.2
  have hdiff : moodStep cfg p a r - p =
      cfg.color_mood_smoothing *
        (easeSCurve (rawColorMood cfg.color_mood_attention_weight
          cfg.color_mood_relaxation_weight cfg.color_mood_intensity_scale a r)
          - p) := by
    unfold moodStep emaSmooth
    ring
  rw [hdiff, abs_mul, abs_of_nonneg hα0]
  have habs : |easeSCurve (rawColorMood cfg.color_mood_attention_weight
      cfg.color_mood_relaxation_weight cfg.color_mood_intensity_scale a r)
      - p| ≤ 1 :=
    abs_le.mpr ⟨by linarith [hem.1, hem.2], by linarith [hem.1, hem.2]⟩
  exact mul_le_of_le_one_right hα0 habs

/-- Witness for C3 at the default configuration, previous value `0.5` and a
maximal raw-input jump. -/
theorem mood_step_continuity_witness :
    |moodStep defaultConfig (1/2) (9/10) (1/10) - 1/2| ≤
      defaultConfig.color_mood_smoothing :=
  mood_step_continuity defaultConfig (by norm_num [defaultConfig]) (1/2)
    (by norm_num) (by norm_num) (9/10) (1/10)

/-- C6: for attention/relaxation in `[0,1]²` one mood update computes exactly
the raw-mood formula of the spec and eases it by the exact symmetric
quadratic S-curve: the source-derived functions agree pointwise with the
formulas transcribed from the claim. -/
theorem mood_formula_exact (aw rw iscale a r : ℚ)
    (ha0 : 0 ≤ a) (ha1 : a ≤ 1) (hr0 : 0 ≤ r) (hr1 : r ≤ 1) :
    rawColorMood aw rw iscale a r = rawMoodSpec aw rw iscale a r ∧
    easeSCurve (rawColorMood aw rw iscale a r) =
      easeSpec (rawMoodSpec aw rw iscale a r) := by
  have h1 : rawColorMood aw rw iscale a r = rawMoodSpec aw rw iscale a r := by
    unfold rawColorMood rawMoodSpec
    rfl
  refine ⟨h1, ?_⟩
  rw [h1]
  unfold easeSCurve easeSpec
  split
  · ring
  · ring

/-- C5 (amended): for alpha > 0 the attention score used for classification
is the clamp to `[0,1]` of `(beta/alpha - attention_min)/(attention_max -
attention_min)` whenever that normalized value is nonzero; when it is exactly
zero the dynamic-scaling fallback is used instead (lines 376-379); and when
alpha is not positive the raw ratio falls back to the neutral value `0.5`
rather than raising an error. -/
theorem attention_score_normalization (cfg : MindShowConfig) (b : BandPowers)
    (hα : b.alpha > 0) :
    (normalizedAttention cfg b ≠ 0 →
      attentionUsed cfg b =
        clamp01 ((b.beta / b.alpha - cfg.attention_min) /
          (cfg.attention_max - cfg.attention_min))) ∧
    (normalizedAttention cfg b = 0 →
      attentionUsed cfg b = dynamicAttentionScaling b) ∧
    (∀ b' : BandPowers, b'.alpha = 0 → rawAttention b' = 1/2) := by
  refine ⟨?_, ?_, ?_⟩
  · intro hn
    simp only [attentionUsed]
    rw [if_neg hn]
    simp only [normalizedAttention, rawAttention]
    rw [if_pos hα]
  · intro hn
    simp only [attentionUsed]
    rw [if_pos hn]
  · intro b' h
    simp only [rawAttention]
    rw [if_neg (by rw [h]; exact lt_irrefl 0)]

/-- Witness for C5: bands `⟨1, 1, 2, 3, 1⟩` (alpha 2, beta 3) at the default
configuration give a nonzero normalized score, so the attention used is the
normalized ratio. -/
theorem attention_score_normalization_witness :
    attentionUsed defaultConfig ⟨1, 1, 2, 3, 1⟩ =
      clamp01 (((3 : ℚ) / 2 - defaultConfig.attention_min) /
        (defaultConfig.attention_max - defaultConfig.attention_min)) :=
  (attention_score_normalization defaultConfig ⟨1, 1, 2, 3, 1⟩
    (by norm_num)).1
    (by norm_num [normalizedAttention, rawAttention, clamp01, defaultConfig,
      min_def, max_def])

/-- Counterexample to C5 as stated: for `cexBands` (alpha = 1 > 0) the
claimed value `clamp01((beta/alpha - attention_min)/(attention_max -
attention_min))` is 0, but the attention score actually used is the
dynamic-scaling fallback `1/(1 + 0.1)/10 = 1/11 ≠ 0` (lines 376-379 and
489-492). -/
theorem attention_score_cex :
    cexBands.alpha > 0 ∧
    clamp01 ((cexBands.beta / cexBands.alpha - defaultConfig.attention_min) /
      (defaultConfig.attention_max - defaultConfig.attention_min)) = 0 ∧
    attentionUsed defaultConfig cexBands = 1/11 ∧
    attentionUsed defaultConfig cexBands ≠
      clamp01 ((cexBands.beta / cexBands.alpha - defaultConfig.attention_min) /
        (defaultConfig.attention_max - defaultConfig.attention_min)) := by
  refine ⟨by norm_num [cexBands], ?_, ?_, ?_⟩
  · norm_num [cexBands, clamp01, defaultConfig, min_def, max_def]
  · norm_num [attentionUsed, normalizedAttention, rawAttention,
      dynamicAttentionScaling, cexBands, clamp01, defaultConfig, min_def,
      max_def]
  · norm_num [attentionUsed, normalizedAttention, rawAttention,
      dynamicAttentionScaling, cexBands, clamp01, defaultConfig, min_def,
      max_def]

/-- C4 (amended): a runtime configuration update with an unknown tunable
name is rejected synchronously (the endpoint reports failure) and the stored
configuration is retained unchanged; a whitelisted name is applied with
whatever numeric value was supplied — the code performs no range validation
(see `update_config_cex` for an out-of-range value being accepted). -/
theorem update_config_validation (cfg : MindShowConfig) (p : String) (v : ℚ) :
    (p ∉ valid_params → updateConfigEndpoint cfg p v = (false, cfg)) ∧
    updateConfigEndpoint cfg "color_mood_smoothing" v =
      (true, { cfg with color_mood_smoothing := v }) ∧
    updateConfigEndpoint cfg "color_mood_intensity_scale" v =
      (true, { cfg with color_mood_intensity_scale := v }) ∧
    updateConfigEndpoint cfg "color_mood_attention_weight" v =
      (true, { cfg with color_mood_attention_weight := v }) ∧
    updateConfigEndpoint cfg "color_mood_relaxation_weight" v =
      (true, { cfg with color_mood_relaxation_weight := v }) ∧
    updateConfigEndpoint cfg "attention_min" v =
      (true, { cfg with attention_min := v }) ∧
    updateConfigEndpoint cfg "attention_max" v =
      (true, { cfg with attention_max := v }) ∧
    updateConfigEndpoint cfg "relaxation_min" v =
      (true, { cfg with relaxation_min := v }) ∧
    updateConfigEndpoint cfg "relaxation_max" v =
      (true, { cfg with relaxation_max := v }) := by
  refine ⟨?_, ?_, ?_, ?_, ?_, ?_, ?_, ?_, ?_⟩
  · intro h
    simp only [updateConfigEndpoint]
    rw [if_neg h]
  all_goals simp +decide [updateConfigEndpoint, updateConfigField,
    valid_params]

/-- Witness for C4: an unknown tunable name is rejected and the default
configuration is retained. -/
theorem update_config_validation_witness :
    updateConfigEndpoint defaultConfig "bogus_tunable" 1 =
      (false, defaultConfig) :=
  (update_config_validation defaultConfig "bogus_tunable" 1).1 (by decide)

/-- Counterexample to C4 as stated: the out-of-range EMA factor 5 (the spec
requires the smoothing factor to lie in `(0,1]`) is accepted — the call
reports success and the stored value becomes 5 instead of being retained. -/
theorem update_config_cex :
    (updateConfigEndpoint defaultConfig "color_mood_smoothing" 5).1 = true ∧
    (updateConfigEndpoint defaultConfig
      "color_mood_smoothing" 5).2.color_mood_smoothing = 5 ∧
    defaultConfig.color_mood_smoothing ≠ 5 := by
  refine ⟨?_, ?_, by norm_num [defaultConfig]⟩
  · simp +decide [updateConfigEndpoint, updateConfigField, valid_params]
  · simp +decide [updateConfigEndpoint, updateConfigField, valid_params]

/-- C7 (amended): the per-tick command includes a target pattern name only
when the brain state differs from the previous tick's state, taken from the
fixed table (engaged → "sparkfire", relaxed → "slow waves" (the calm
pattern), neutral → "rainbow") together with that state's base
hue/brightness/speed; and the variables sent always include `colorMoodBias`
set to the smoothed mood value rounded to 3 decimal places (`round(·, 3)`,
line 809; see `dispatch_colorMoodBias_cex` for the rounding gap). -/
theorem dispatch_command_shape (bs last : BrainState) (mood : ℚ) :
    ((buildCommand bs last mood).targetPattern =
      if bs ≠ last then some (state_mappings bs).pattern_name else none) ∧
    (state_mappings .engaged).pattern_name = "sparkfire" ∧
    (state_mappings .relaxed).pattern_name = "slow waves" ∧
    (state_mappings .neutral).pattern_name = "rainbow" ∧
    (buildCommand bs last mood).vars.hue = (state_mappings bs).vars.hue ∧
    (buildCommand bs last mood).vars.brightness =
      (state_mappings bs).vars.brightness ∧
    (buildCommand bs last mood).vars.speed = (state_mappings bs).vars.speed ∧
    (buildCommand bs last mood).vars.colorMoodBias = round3 mood :=
  ⟨rfl, rfl, rfl, rfl, rfl, rfl, rfl, rfl⟩

lemma cex_mood_value : moodStep defaultConfig (1/2) (4/5) (1/5) = 5143/12500 := by
  norm_num [moodStep, emaSmooth, easeSCurve, rawColorMood, clamp01,
    defaultConfig, min_def, max_def]

lemma cex_round_value : round3 (5143/12500) = 411/1000 := by
  norm_num [round3, roundHalfEven]

/-- Counterexample to C7 as stated: with attention 0.8, relaxation 0.2 and
previous smoothed value 0.5 at the default configuration, the smoothed mood
is 0.41144 but the `colorMoodBias` variable sent is the rounded 0.411 — not
the smoothed mood value itself. -/
theorem dispatch_colorMoodBias_cex :
    moodStep defaultConfig (1/2) (4/5) (1/5) = 5143/12500 ∧
    (buildCommand .neutral .neutral
      (moodStep defaultConfig (1/2) (4/5) (1/5))).vars.colorMoodBias =
      411/1000 ∧
    (411/1000 : ℚ) ≠ 5143/12500 := by
  refine ⟨cex_mood_value, ?_, by norm_num⟩
  show round3 (moodStep defaultConfig (1/2) (4/5) (1/5)) = 411/1000
  rw [cex_mood_value, cex_round_value]

/-- C8: pattern resolution is a case-insensitive substring match against the
catalog names, first match in iteration order wins ("fire" — and "FIRE" —
against the Scenario C catalog selects `AB12CD34`); when nothing matches, no
pattern-switch message is sent and the variable-set message is still sent. -/
theorem switch_pattern_resolution :
    findPatternId scenarioCatalog "fire" = some "AB12CD34" ∧
    findPatternId scenarioCatalog "FIRE" = some "AB12CD34" ∧
    findPatternId scenarioCatalog "nonexistent" = none ∧
    (∀ (patterns : List (String × String)) (name : String)
        (vs : List (String × ℚ)),
      findPatternId patterns name = none →
      updateDeviceMessages (some name) patterns vs = [.setVars vs]) ∧
    (∀ (e : String × String) (rest : List (String × String)) (name : String),
      substrOfB (toLowerList name.data) (toLowerList e.2.data) = true →
      findPatternId (e :: rest) name = some e.1) := by
  refine ⟨by decide, by decide, by decide, ?_, ?_⟩
  · intro patterns name vs h
    simp only [updateDeviceMessages, h]
  · intro e rest name h
    simp only [findPatternId, List.find?_cons, h]
    rfl

/-- Witness for C8: a request for a pattern absent from the Scenario C
catalog skips the pattern switch but still sends the variable set. -/
theorem switch_pattern_resolution_witness :
    updateDeviceMessages (some "nonexistent") scenarioCatalog
      [("colorMoodBias", 1/2)] =
      [DeviceMsg.setVars [("colorMoodBias", 1/2)]] :=
  switch_pattern_resolution.2.2.2.1 scenarioCatalog "nonexistent"
    [("colorMoodBias", 1/2)] (by decide)

lemma parse_foldl :
    ∀ (lines : List String) (d : List (String × String)),
      (∀ kv ∈ lines.filterMap (fun l => parseLine l.data),
        ∀ q ∈ d, kv.1 ≠ q.1) →
      (((lines.filterMap (fun l => parseLine l.data)).map Prod.fst).Nodup) →
      lines.foldl
        (fun d' line =>
          match parseLine line.data with
          | some kv => dictInsert d' kv.1 kv.2
          | none => d') d
        = d ++ lines.filterMap (fun l => parseLine l.data) := by
  intro lines
  induction lines with
  | nil =>
    intro d _ _
    simp
  | cons l ls ih =>
    intro d hdisj hnodup
    cases hf : parseLine l.data with
    | none =>
      have hfm : (l :: ls).filterMap (fun s => parseLine s.data) =
          ls.filterMap (fun s => parseLine s.data) := by
        simp [List.filterMap_cons, hf]
      rw [hfm] at hdisj hnodup ⊢
      simp only [List.foldl_cons, hf]
      exact ih d hdisj hnodup
    | some kv =>
      have hfm : (l :: ls).filterMap (fun s => parseLine s.data) =
          kv :: ls.filterMap (fun s => parseLine s.data) := by
        simp [List.filterMap_cons, hf]
      rw [hfm] at hdisj hnodup ⊢
      simp only [List.map_cons] at hnodup
      simp only [List.foldl_cons, hf]
      have hany : d.any (fun q => q.1 == kv.1) = false := by
        rw [List.any_eq_false]
        intro q hq
        simp only [beq_iff_eq]
        intro hqe
        exact hdisj kv (List.mem_cons_self _ _) q hq hqe.symm
      have hins : dictInsert d kv.1 kv.2 = d ++ [kv] := by
        simp only [dictInsert, hany]
        simp
      rw [hins]
      have hd2 : ∀ kv' ∈ ls.filterMap (fun s => parseLine s.data),
          ∀ q ∈ d ++ [kv], kv'.1 ≠ q.1 := by
        intro kv' hkv' q hq
        rcases List.mem_append.mp hq with hq | hq
        · exact hdisj kv' (List.mem_cons_of_mem _ hkv') q hq
        · have hqkv : q = kv := by simpa using hq
          subst hqkv
          intro he
          apply (List.nodup_cons.mp hnodup).1
          rw [← he]
          exact List.mem_map_of_mem Prod.fst hkv'
      rw [ih (d ++ [kv]) hd2 (List.nodup_cons.mp hnodup).2]
      simp

/-- C9: parsing accumulated catalog frame text maps every line that contains
a tab and is not blank to an entry (key = text before the first tab, value =
remainder of the line), skipping blank and tab-less lines — so when the
qualifying keys are distinct the catalog is exactly the list of those
entries in order; in particular the Scenario C frame parses to exactly
`{"AB12CD34": "sparkfire", "EF56GH78": "rainbow"}`. -/
theorem catalog_parse_characterization (text : String)
    (hkeys : (((pySplitlines text).filterMap
      (fun l => parseLine l.data)).map Prod.fst).Nodup) :
    parseCatalogText text =
      (pySplitlines text).filterMap (fun l => parseLine l.data) ∧
    parseCatalogText "AB12CD34\tsparkfire\nEF56GH78\trainbow\n" =
      [("AB12CD34", "sparkfire"), ("EF56GH78", "rainbow")] := by
  constructor
  · have h := parse_foldl (pySplitlines text) []
      (by intro kv _ q hq; exact absurd hq (List.not_mem_nil q)) hkeys
    simpa [parseCatalogText] using h
  · decide

/-- Witness for C9 at the Scenario C frame (whose two keys are distinct). -/
theorem catalog_parse_characterization_witness :
    parseCatalogText "AB12CD34\tsparkfire\nEF56GH78\trainbow\n" =
      (pySplitlines "AB12CD34\tsparkfire\nEF56GH78\trainbow\n").filterMap
        (fun l => parseLine l.data) :=
  (catalog_parse_characterization "AB12CD34\tsparkfire\nEF56GH78\trainbow\n"
    (by decide)).1

/-- C10: connection acceptance is stricter than discovery — any reply the
connection handshake accepts (truthy `"ack"`) is also classified as a device
by discovery (`"ack"` or `"fps"` key present), and the reply carrying only
`"fps"` is classified as a device by discovery yet rejected by the
connection handshake. -/
theorem discovery_accepts_connect_rejects :
    (∀ o : JsonObj, connectAccepts o = true → isPixelblazeReply o = true) ∧
    isPixelblazeReply fpsOnlyReply = true ∧
    connectAccepts fpsOnlyReply = false := by
  refine ⟨?_, by decide, by decide⟩
  intro o h
  simp only [connectAccepts, pyTruthy, getKey] at h
  simp only [isPixelblazeReply, hasKey, Bool.or_eq_true]
  cases hf : List.find? (fun p => p.1 == "ack") o with
  | none =>
    rw [hf] at h
    simp at h
  | some q =>
    left
    have hpq := List.find?_some hf
    rw [List.any_eq_true]
    exact ⟨q, List.mem_of_find?_eq_some hf, hpq⟩

/-- Witness for C10: a reply with a truthy `"ack"` is accepted by the
connection handshake and classified as a device by discovery. -/
theorem discovery_accepts_connect_rejects_witness :
    isPixelblazeReply [("ack", JsonVal.bool true)] = true :=
  discovery_accepts_connect_rejects.1 [("ack", JsonVal.bool true)] (by decide)

/-- Witness for C6 at a concrete in-range input. -/
theorem mood_formula_exact_witness :
    rawColorMood (2/5) (2/5) (1/2) (4/5) (1/5) =
      rawMoodSpec (2/5) (2/5) (1/2) (4/5) (1/5) ∧
    easeSCurve (rawColorMood (2/5) (2/5) (1/2) (4/5) (1/5)) =
      easeSpec (rawMoodSpec (2/5) (2/5) (1/2) (4/5) (1/5)) :=
  mood_formula_exact (2/5) (2/5) (1/2) (4/5) (1/5) (by norm_num) (by norm_num)
    (by norm_num) (by norm_num)

end MindShow
